import Mathlib

/-!
Verification of `homework.py`, a Telegram polling bot for the Practicum
homework-review API.  The Python script is shallowly embedded: JSON payloads
become the inductive `JsonVal`, each Python function becomes a Lean function of
the same name, and the body of the `while` loop in `main` becomes the pure
state-transition function `runCycle` whose observable effects (messages passed
to `send_message`, log records, `time.sleep` calls, an uncaught exception) are
collected in a `CycleEffects` record.
-/

/-- A decoded JSON value, as produced by `response.json()` in `get_api_answer`
and consumed by `check_response` / `parse_status`.  A `dict` is its list of
key/value items; Python dictionaries have distinct keys, so embedded dicts are
taken with distinct keys (lookup takes the first match, which agrees with
Python on such dicts).  JSON booleans and floats are omitted: no code path of
the script distinguishes them from the cases below. -/
inductive JsonVal where
  | null
  | str (s : String)
  | int (n : Int)
  | list (xs : List JsonVal)
  | dict (kvs : List (String × JsonVal))

/-- First-match lookup in a dict's item list (Python `d[k]` / `k in d`). -/
def dictLookup (kvs : List (String × JsonVal)) (k : String) : Option JsonVal :=
  match kvs with
  | [] => none
  | (k2, v) :: rest => if k2 = k then some v else dictLookup rest k

/-- Python `d.get(k)`: the stored value when the key is present, `None`
otherwise. -/
def pyGet (kvs : List (String × JsonVal)) (k : String) : JsonVal :=
  (dictLookup kvs k).getD JsonVal.null

mutual

/-- Python `str()` of a value as interpolated by an f-string: `None` for null,
the string itself, decimal for integers, and the container repr for lists and
dicts.  (Inside containers Python switches to `repr`; its single-quote
wrapping of strings is reproduced, without Python's escaping of quote
characters inside the string, which no message of this program exercises.) -/
def pyStr : JsonVal → String
  | .null => "None"
  | .str s => s
  | .int n => toString n
  | .list xs => "[" ++ pyReprList xs ++ "]"
  | .dict kvs => "\x7b" ++ pyReprKVs kvs ++ "\x7d"

/-- Python `repr()` of a value (used for elements inside containers). -/
def pyRepr : JsonVal → String
  | .null => "None"
  | .str s => "\x27" ++ s ++ "\x27"
  | .int n => toString n
  | .list xs => "[" ++ pyReprList xs ++ "]"
  | .dict kvs => "\x7b" ++ pyReprKVs kvs ++ "\x7d"

/-- Comma-separated reprs of the elements of a list. -/
def pyReprList : List JsonVal → String
  | [] => ""
  | [x] => pyRepr x
  | x :: y :: rest => pyRepr x ++ ", " ++ pyReprList (y :: rest)

/-- Comma-separated `key: value` reprs of a dict's items. -/
def pyReprKVs : List (String × JsonVal) → String
  | [] => ""
  | [(k, v)] => "\x27" ++ k ++ "\x27: " ++ pyRepr v
  | (k, v) :: p :: rest => "\x27" ++ k ++ "\x27: " ++ pyRepr v ++ ", " ++ pyReprKVs (p :: rest)

end

/-- Python `str(type(v))`, as interpolated by `check_response`'s first error
message. -/
def pyTypeName : JsonVal → String
  | .null => "<class \x27NoneType\x27>"
  | .str _ => "<class \x27str\x27>"
  | .int _ => "<class \x27int\x27>"
  | .list _ => "<class \x27list\x27>"
  | .dict _ => "<class \x27dict\x27>"

/-- `RETRY_TIME = 600`, the fixed sleep interval (seconds). -/
def RETRY_TIME : Nat := 600

/-- `HOMEWORK_STATUSES`, the status catalog: a fixed dict from known status
codes to verdict text. -/
def HOMEWORK_STATUSES : List (String × String) :=
  [("approved", "Работа проверена: ревьюеру всё понравилось. Ура!"),
   ("reviewing", "Работа взята на проверку ревьюером."),
   ("rejected", "Работа проверена: у ревьюера есть замечания.")]

/-- Key lookup in `HOMEWORK_STATUSES` (`status in HOMEWORK_STATUSES` /
`HOMEWORK_STATUSES[status]`). -/
def statusLookup (st : String) : Option String :=
  (HOMEWORK_STATUSES.find? (fun kv => kv.1 = st)).map (fun kv => kv.2)

/-- Log records emitted through the `logging` module. -/
inductive LogEvent where
  | critical (msg : String)
  | error (msg : String)
  | info (msg : String)
  | debug (msg : String)
  deriving DecidableEq

/-- `send_message(bot, message)`: attempts `bot.send_message` (its outcome is
the black-box transport, passed as `outcome`: `.ok ()` delivered, `.error e`
raised with message `e`).  The `try/except Exception` swallows every delivery
failure, logging it; on success it logs confirmation.  The return type records
that a raising embedding would use `.error`; the function always returns
`.ok` with its log records. -/
def send_message (outcome : Except String Unit) (message : String) :
    Except String (List LogEvent) :=
  match outcome with
  | .error telegram_error =>
      .ok [LogEvent.error
        ("Сбой в работе программы: Отправка сообщения в чат не" ++
         "удалась. " ++ telegram_error)]
  | .ok _ =>
      .ok [LogEvent.info
        ("Сообщение успешно отправлено: \"" ++ message ++ "\"")]

/-- Structural failure kinds of `check_response`, one per `raise` site:
`notAMapping` (TypeError, payload not a dict), `emptyMapping`
(DictIsEmptyError — the class lives in the repo's `exceptions` module, not in
`src/`; modelled from the spec as a plain exception kind `EmptyMapping`),
`missingKey` (KeyError, no `homeworks` key), `notASequence` (TypeError,
`homeworks` value not a list). -/
inductive CheckError where
  | notAMapping (got : JsonVal)
  | emptyMapping
  | missingKey
  | notASequence (got : JsonVal)

/-- `check_response(response)`: validates the payload structure and returns
the `homeworks` list unchanged.  Pure: no side effects. -/
def check_response (response : JsonVal) : Except CheckError (List JsonVal) :=
  match response with
  | .dict kvs =>
      if kvs.length < 1 then .error .emptyMapping
      else
        match dictLookup kvs "homeworks" with
        | none => .error .missingKey
        | some (.list hws) => .ok hws
        | some v => .error (.notASequence v)
  | v => .error (.notAMapping v)

/-- Failure of `parse_status`.  The membership test
`homework_status not in HOMEWORK_STATUSES` first hashes the status value, so
two distinct exceptions can arise: `unknownStatus` is the `KeyError` (raised
by `parse_status`, caught in `main`) for a hashable status — `None`, a
number, an unlisted string — that is not a catalog key; `unhashableStatus`
is the `TypeError` (`unhashable type`) raised by the membership test itself
when the status value is a list or a dict.  That `TypeError` is caught
nowhere: the handler at line 131 of `main` catches only `KeyError`, and the
outer handlers do not cover the `else` blocks, so it kills the process. -/
inductive ParseError where
  | unknownStatus (status : JsonVal)
  | unhashableStatus (status : JsonVal)

/-- The fixed message template of `parse_status` (name and comment already
rendered by `str()`). -/
def mkStatusMessage (name verdict comment : String) : String :=
  "Изменился статус проверки работы \"" ++ name ++ "\". " ++ verdict ++
    " Комментарий ревьювера: " ++ comment ++ "."

/-- `parse_status(homework)` for a record that is a dict (a non-dict record
makes `.get` raise `AttributeError`, handled at the `runCycle` level as a
crash).  Reads `homework_name`, `status`, `reviewer_comment` via `.get`;
an unhashable status value (list or dict) makes the membership test raise
the uncaught `TypeError` (`unhashableStatus`), a hashable non-key status
raises the caught `KeyError` (`unknownStatus`), and a known status
interpolates the template. -/
def parse_status (homework : List (String × JsonVal)) : Except ParseError String :=
  let homework_name := pyGet homework "homework_name"
  let homework_status := pyGet homework "status"
  let reviewer_comment := pyGet homework "reviewer_comment"
  match homework_status with
  | .str st =>
      match statusLookup st with
      | some verdict =>
          .ok (mkStatusMessage (pyStr homework_name) verdict (pyStr reviewer_comment))
      | none => .error (.unknownStatus homework_status)
  | .list xs => .error (.unhashableStatus (.list xs))
  | .dict ks => .error (.unhashableStatus (.dict ks))
  | other => .error (.unknownStatus other)

/-- The three environment credentials; `none` models an unset variable
(`os.getenv` returning `None`), `some s` a set variable — possibly the empty
string. -/
structure Credentials where
  practicum_token : Option String
  telegram_token : Option String
  telegram_chat_id : Option String

/-- `check_tokens()`: `False` (after a critical log) as soon as one of the
three tokens is `None`, else `True`.  Note: only `is None` is tested — a
present-but-empty string passes. -/
def check_tokens (c : Credentials) : Bool :=
  c.practicum_token.isSome && c.telegram_token.isSome && c.telegram_chat_id.isSome

/-- Mutable state of `main`'s loop: `current_timestamp` (the poll cursor,
an `int` initially, whatever `response.get('current_date')` returned after a
validated cycle) and `cache_message` (the last error message sent). -/
structure LoopState where
  current_timestamp : JsonVal
  cache_message : String

/-- Observable effects of one iteration of the `while` loop:
`notifications` — messages passed to `send_message` in order (delivery and
its internal logging are modelled separately by `send_message`);
`errorLogs` / `debugLogs` — records logged at those levels (`print(response)`
on stdout is not a log record and is not tracked);
`sleeps` — durations of the `time.sleep` calls in order;
`crashed` — an exception escaped the iteration and killed the process. -/
structure CycleEffects where
  notifications : List String
  errorLogs : List String
  debugLogs : List String
  sleeps : List Nat
  crashed : Bool

/-- `error_log_and_message(bot, error, cache_message)` with `error` already
rendered by `str()`: logs the diagnostic, sends it only when it differs from
the cached last-sent error message, sleeps `RETRY_TIME`, and returns the new
cache value. -/
def error_log_and_message (errorStr : String) (cache_message : String) :
    String × CycleEffects :=
  let message := "Сбой в работе программы: " ++ errorStr
  if cache_message = message then
    (cache_message, ⟨[], [message], [], [RETRY_TIME], false⟩)
  else
    (message, ⟨[message], [message], [], [RETRY_TIME], false⟩)

/-- `str()` of the `ConnectionError` raised by `get_api_answer` on a non-200
response. -/
def connErrStr (url : String) (code : Nat) : String :=
  "Эндпоинт " ++ url ++ " недоступен. Код ответа API: " ++ toString code

/-- `str()` of the exception raised at each `check_response` failure site
(`str` of a `KeyError` is the `repr` of its argument, hence the quotes). -/
def checkErrStr : CheckError → String
  | .notAMapping v =>
      "Неверный тип данных ответа API Практикума. Ожидался dict, получен " ++ pyTypeName v
  | .emptyMapping => "Словарь ответа API пуст"
  | .missingKey => "\x27Ключа homeworks нет в ответе API\x27"
  | .notASequence _ => "homeworks не является списком"

/-- `str()` of the exception carried by a `ParseError`: the quoted `repr`
of the `KeyError` message for an unknown status, the interpreter's
`TypeError` message for an unhashable one (the latter never reaches
`error_log_and_message`, since that exception is uncaught). -/
def parseErrStr : ParseError → String
  | .unknownStatus v => "\x27Неверный статус работы: " ++ pyStr v ++ "\x27"
  | .unhashableStatus (.dict _) => "unhashable type: \x27dict\x27"
  | .unhashableStatus _ => "unhashable type: \x27list\x27"

/-- Outcome of `get_api_answer(current_timestamp)`, the black-box fetch:
either the `ConnectionError` data (request URL and non-200 status code) or
the decoded JSON payload, returned verbatim. -/
inductive FetchResult where
  | httpError (url : String) (code : Nat)
  | ok (response : JsonVal)

/-- `response.get('current_date')` as executed on line 139 of `main`; only
reached once `check_response` has certified the response is a dict. -/
def respGet (resp : JsonVal) (k : String) : JsonVal :=
  match resp with
  | .dict kvs => pyGet kvs k
  | _ => .null

/-- One iteration of `main`'s `while` body, given the fetch outcome.
Branches, in source order: `ConnectionError` → shared error path;
`check_response` failure → shared error path (cursor untouched in both);
empty `homeworks` → debug log, then cursor update and sleep;
first record a dict with known status → notification, cursor update, sleep;
first record a dict with a hashable unknown status → `KeyError`, caught:
shared error path (which already slept once), then — the `except` handler
falls through to lines 139–140 — cursor update and a second sleep;
first record a dict with an unhashable (list/dict) status value →
`TypeError` from the membership test, caught nowhere: the process dies with
no log, notification, cursor update or sleep;
first record not a dict → `homework.get` raises `AttributeError`, caught
nowhere: the process dies before any cursor update or sleep. -/
def runCycle (s : LoopState) (fr : FetchResult) : LoopState × CycleEffects :=
  match fr with
  | .httpError url code =>
      let r := error_log_and_message (connErrStr url code) s.cache_message
      ({ s with cache_message := r.1 }, r.2)
  | .ok resp =>
      match check_response resp with
      | .error ce =>
          let r := error_log_and_message (checkErrStr ce) s.cache_message
          ({ s with cache_message := r.1 }, r.2)
      | .ok [] =>
          ({ s with current_timestamp := respGet resp "current_date" },
           ⟨[], [], ["Новые статусы отсутствуют"], [RETRY_TIME], false⟩)
      | .ok (JsonVal.dict kvs :: _) =>
          match parse_status kvs with
          | .ok message =>
              ({ s with current_timestamp := respGet resp "current_date" },
               ⟨[message], [], [], [RETRY_TIME], false⟩)
          | .error (.unknownStatus sv) =>
              let r := error_log_and_message (parseErrStr (.unknownStatus sv))
                s.cache_message
              ({ current_timestamp := respGet resp "current_date",
                 cache_message := r.1 },
               { r.2 with sleeps := r.2.sleeps ++ [RETRY_TIME] })
          | .error (.unhashableStatus _) =>
              (s, ⟨[], [], [], [], true⟩)
      | .ok (_ :: _) =>
          (s, ⟨[], [], [], [], true⟩)

/-- The `while check_tokens():` loop of `main`, driven by the list of fetch
outcomes the network will deliver (one per iteration attempted).  The
credential guard is re-evaluated before every iteration; a crashed iteration
ends the process. -/
def runLoop (c : Credentials) (s : LoopState) (frs : List FetchResult) :
    LoopState × List CycleEffects :=
  match frs with
  | [] => (s, [])
  | fr :: rest =>
      if check_tokens c then
        let (s1, eff) := runCycle s fr
        if eff.crashed then (s1, [eff])
        else
          let (s2, effs) := runLoop c s1 rest
          (s2, eff :: effs)
      else (s, [])

/-- `statusKnown hw`: the record's `status` value is a string key of
`HOMEWORK_STATUSES` (the membership test of `parse_status`). -/
def statusKnown (homework : List (String × JsonVal)) : Bool :=
  match pyGet homework "status" with
  | .str st => (statusLookup st).isSome
  | _ => false

/-- Hashability of a JSON value in Python (`hash()` succeeds): lists and
dicts are unhashable; `None`, strings and numbers are hashable. -/
def statusHashable : JsonVal → Bool
  | .list _ => false
  | .dict _ => false
  | _ => true

/-- Behaviour of `error_log_and_message`: it always returns the freshly
composed diagnostic as the new cache, always logs it, notifies exactly when
the diagnostic differs from the incoming cache, and always sleeps once. -/
theorem elam_spec (e c : String) :
    (error_log_and_message e c).1 = "Сбой в работе программы: " ++ e ∧
    (error_log_and_message e c).2.errorLogs = ["Сбой в работе программы: " ++ e] ∧
    (error_log_and_message e c).2.notifications =
      (if c = "Сбой в работе программы: " ++ e then []
       else ["Сбой в работе программы: " ++ e]) ∧
    (error_log_and_message e c).2.sleeps = [RETRY_TIME] ∧
    (error_log_and_message e c).2.crashed = false := by
  unfold error_log_and_message
  by_cases h : c = "Сбой в работе программы: " ++ e <;> simp [h]

/-- Every iteration whose error log is exactly `[m]` took the shared error
path with diagnostic `m`: it notified exactly when `m` differs from the
cached message, and left `m` as the new cache. -/
theorem errorCycle_effects (s : LoopState) (fr : FetchResult) (m : String)
    (h : (runCycle s fr).2.errorLogs = [m]) :
    (runCycle s fr).2.notifications = (if s.cache_message = m then [] else [m]) ∧
    (runCycle s fr).1.cache_message = m := by
  rcases fr with ⟨url, code⟩ | resp
  · obtain ⟨h1, h2, h3, -, -⟩ := elam_spec (connErrStr url code) s.cache_message
    simp only [runCycle] at h ⊢
    rw [h2] at h
    simp only [List.cons.injEq, and_true] at h
    subst h
    exact ⟨h3, h1⟩
  · rcases hc : check_response resp with ce | hws
    · obtain ⟨h1, h2, h3, -, -⟩ := elam_spec (checkErrStr ce) s.cache_message
      simp only [runCycle, hc] at h ⊢
      rw [h2] at h
      simp only [List.cons.injEq, and_true] at h
      subst h
      exact ⟨h3, h1⟩
    · rcases hws with - | ⟨hw, t⟩
      · simp [runCycle, hc] at h
      · rcases hw with - | s' | n | xs | kvs
        · simp [runCycle, hc] at h
        · simp [runCycle, hc] at h
        · simp [runCycle, hc] at h
        · simp [runCycle, hc] at h
        · rcases hp : parse_status kvs with pe | msg
          · rcases pe with sv | sv
            · obtain ⟨h1, h2, h3, -, -⟩ :=
                elam_spec (parseErrStr (.unknownStatus sv)) s.cache_message
              simp only [runCycle, hc, hp] at h ⊢
              rw [h2] at h
              simp only [List.cons.injEq, and_true] at h
              subst h
              exact ⟨h3, h1⟩
            · simp [runCycle, hc, hp] at h
          · simp [runCycle, hc, hp] at h

/-- C1 (counterexample, two inputs): (i) a cycle whose fetch and validation
succeed but whose response lacks the `current_date` key does NOT leave the
cursor unchanged — `current_timestamp = response.get('current_date')`
overwrites it with `None`; (ii) a cycle whose fetch and validation succeed
and whose response carries `current_date = 9`, but whose first record has
the unhashable status value `[]`, dies of the uncaught `TypeError` in
`parse_status` and the cursor is NOT set to the server-supplied value. -/
theorem cursor_update_counterexample :
    (check_response (.dict [("homeworks", .list [])]) = .ok [] ∧
     dictLookup [("homeworks", JsonVal.list [])] "current_date" = none ∧
     (runCycle ⟨.int 42, ""⟩ (.ok (.dict [("homeworks", .list [])]))).1.current_timestamp
       ≠ (⟨JsonVal.int 42, ""⟩ : LoopState).current_timestamp) ∧
    (check_response (.dict [("homeworks", .list [.dict [("status", .list [])]]),
        ("current_date", .int 9)]) = .ok [.dict [("status", .list [])]] ∧
     (runCycle ⟨.int 42, ""⟩ (.ok (.dict [("homeworks", .list [.dict [("status", .list [])]]),
        ("current_date", .int 9)]))).2.crashed = true ∧
     (runCycle ⟨.int 42, ""⟩ (.ok (.dict [("homeworks", .list [.dict [("status", .list [])]]),
        ("current_date", .int 9)]))).1.current_timestamp ≠ JsonVal.int 9) := by
  refine ⟨⟨rfl, rfl, ?_⟩, rfl, rfl, ?_⟩
  · intro h
    exact JsonVal.noConfusion h
  · intro h
    injection h with h2
    exact absurd h2 (by decide)

/-- C1 (amended): for every cycle in which fetch and validation succeed, if
the iteration completes then the cursor is set to
`response.get('current_date')` — the server-supplied value when the key is
present, and `None` (not the previous cursor) when the key is absent; if the
iteration instead dies of an uncaught formatting exception (first record not
a mapping, or an unhashable status value), the cursor is left untouched as
the process exits. -/
theorem cursor_set_to_server_value (s : LoopState) (kvs : List (String × JsonVal))
    (hws : List JsonVal)
    (hv : check_response (.dict kvs) = .ok hws) :
    ((runCycle s (.ok (.dict kvs))).2.crashed = false →
      (runCycle s (.ok (.dict kvs))).1.current_timestamp
        = (dictLookup kvs "current_date").getD JsonVal.null) ∧
    ((runCycle s (.ok (.dict kvs))).2.crashed = true →
      (runCycle s (.ok (.dict kvs))).1.current_timestamp = s.current_timestamp) := by
  rcases hws with - | ⟨hw, t⟩
  · refine ⟨fun _ => by simp [runCycle, hv, respGet, pyGet], fun hcr => ?_⟩
    simp [runCycle, hv] at hcr
  · rcases hw with - | s' | n | xs | rkvs
    · exact ⟨fun hnc => by simp [runCycle, hv] at hnc, fun _ => by simp [runCycle, hv]⟩
    · exact ⟨fun hnc => by simp [runCycle, hv] at hnc, fun _ => by simp [runCycle, hv]⟩
    · exact ⟨fun hnc => by simp [runCycle, hv] at hnc, fun _ => by simp [runCycle, hv]⟩
    · exact ⟨fun hnc => by simp [runCycle, hv] at hnc, fun _ => by simp [runCycle, hv]⟩
    · rcases hp : parse_status rkvs with pe | msg
      · rcases pe with sv | sv
        · obtain ⟨-, -, -, -, hcf⟩ :=
            elam_spec (parseErrStr (.unknownStatus sv)) s.cache_message
          refine ⟨fun _ => by simp [runCycle, hv, hp, respGet, pyGet], fun hcr => ?_⟩
          simp only [runCycle, hv, hp] at hcr
          rw [hcf] at hcr
          exact absurd hcr (by decide)
        · exact ⟨fun hnc => by simp [runCycle, hv, hp] at hnc,
                 fun _ => by simp [runCycle, hv, hp]⟩
      · refine ⟨fun _ => by simp [runCycle, hv, hp, respGet, pyGet], fun hcr => ?_⟩
        simp [runCycle, hv, hp] at hcr

/-- C1 (witness for the amended theorem at a concrete input). -/
theorem cursor_set_to_server_value_witness :
    (runCycle ⟨.int 0, ""⟩ (.ok (.dict [("homeworks", .list []), ("current_date", .int 7)]))).1.current_timestamp
      = (dictLookup [("homeworks", JsonVal.list []), ("current_date", JsonVal.int 7)] "current_date").getD JsonVal.null :=
  (cursor_set_to_server_value ⟨.int 0, ""⟩
    [("homeworks", .list []), ("current_date", .int 7)] [] rfl).1 rfl

/-- C2 (counterexample): the dedup law does not hold for EVERY pair of
consecutive error cycles — when the pair is preceded by a cycle with the
same error (the cached last-error text already equals the first diagnostic),
both members of an identical pair are suppressed: zero notifications are
sent, not exactly one, though both diagnostics are still logged.  The
starting state below is exactly the one reached from the documented start
state (empty cache) after one transport-error cycle. -/
theorem error_dedup_zero_counterexample :
    (runCycle ⟨.int 0, ""⟩ (.httpError "u" 500)).1.current_timestamp = JsonVal.int 0 ∧
    (runCycle ⟨.int 0, ""⟩ (.httpError "u" 500)).1.cache_message
      = "Сбой в работе программы: Эндпоинт u недоступен. Код ответа API: 500" ∧
    (runCycle ⟨.int 0, "Сбой в работе программы: Эндпоинт u недоступен. Код ответа API: 500"⟩
        (.httpError "u" 500)).2.errorLogs
      = ["Сбой в работе программы: Эндпоинт u недоступен. Код ответа API: 500"] ∧
    (runCycle (runCycle ⟨.int 0, "Сбой в работе программы: Эндпоинт u недоступен. Код ответа API: 500"⟩
        (.httpError "u" 500)).1 (.httpError "u" 500)).2.errorLogs
      = ["Сбой в работе программы: Эндпоинт u недоступен. Код ответа API: 500"] ∧
    (runCycle ⟨.int 0, "Сбой в работе программы: Эндпоинт u недоступен. Код ответа API: 500"⟩
        (.httpError "u" 500)).2.notifications
      ++ (runCycle (runCycle ⟨.int 0, "Сбой в работе программы: Эндпоинт u недоступен. Код ответа API: 500"⟩
        (.httpError "u" 500)).1 (.httpError "u" 500)).2.notifications = [] := by
  refine ⟨rfl, by decide, by decide, by decide, by decide⟩

/-- C2 (amended): over two consecutive error iterations with diagnostics
`m1`, `m2`, provided the cached last-error text differs from `m1` when the
pair starts (as at startup, where the cache is empty): if the diagnostics
are identical, exactly one notification goes out over the two iterations
(the second is suppressed, though — hypothesis `h2` — still logged); if they
differ, both are sent and the cache ends at the new diagnostic. -/
theorem error_notification_dedup (s0 : LoopState) (fr1 fr2 : FetchResult) (m1 m2 : String)
    (h1 : (runCycle s0 fr1).2.errorLogs = [m1])
    (h2 : (runCycle (runCycle s0 fr1).1 fr2).2.errorLogs = [m2])
    (h0 : s0.cache_message ≠ m1) :
    (m1 = m2 →
      (runCycle s0 fr1).2.notifications
        ++ (runCycle (runCycle s0 fr1).1 fr2).2.notifications = [m1]) ∧
    (m1 ≠ m2 →
      (runCycle s0 fr1).2.notifications
        ++ (runCycle (runCycle s0 fr1).1 fr2).2.notifications = [m1, m2] ∧
      (runCycle (runCycle s0 fr1).1 fr2).1.cache_message = m2) := by
  obtain ⟨n1, c1⟩ := errorCycle_effects s0 fr1 m1 h1
  obtain ⟨n2, c2⟩ := errorCycle_effects _ fr2 m2 h2
  rw [c1] at n2
  constructor
  · rintro rfl
    rw [n1, n2]
    simp [h0]
  · intro hne
    rw [n1, n2]
    simp [h0, hne, c2]

/-- C2 (witness): two consecutive identical transport-error cycles starting
from an empty cache send exactly one notification. -/
theorem error_notification_dedup_witness :
    (runCycle ⟨.int 0, ""⟩ (.httpError "u" 500)).2.notifications
      ++ (runCycle (runCycle ⟨.int 0, ""⟩ (.httpError "u" 500)).1 (.httpError "u" 500)).2.notifications
      = ["Сбой в работе программы: Эндпоинт u недоступен. Код ответа API: 500"] :=
  (error_notification_dedup ⟨.int 0, ""⟩ (.httpError "u" 500) (.httpError "u" 500)
    "Сбой в работе программы: Эндпоинт u недоступен. Код ответа API: 500"
    "Сбой в работе программы: Эндпоинт u недоступен. Код ответа API: 500"
    (by decide) (by decide) (by decide)).1 rfl

/-- C4: an iteration that fails in the fetch (`ConnectionError`) or in
`check_response` leaves the cursor exactly as it was. -/
theorem cursor_frozen_on_error (s : LoopState) (fr : FetchResult)
    (h : (∃ url code, fr = .httpError url code) ∨
         (∃ resp ce, fr = .ok resp ∧ check_response resp = .error ce)) :
    (runCycle s fr).1.current_timestamp = s.current_timestamp := by
  rcases h with ⟨url, code, rfl⟩ | ⟨resp, ce, rfl, hc⟩
  · rfl
  · simp [runCycle, hc]

/-- C4 (witness): a concrete transport-error cycle preserves the cursor. -/
theorem cursor_frozen_on_error_witness :
    (runCycle ⟨.int 7, "x"⟩ (.httpError "u" 404)).1.current_timestamp
      = (⟨JsonVal.int 7, "x"⟩ : LoopState).current_timestamp :=
  cursor_frozen_on_error ⟨.int 7, "x"⟩ (.httpError "u" 404) (Or.inl ⟨"u", 404, rfl⟩)

/-- C5: when fetch and validation succeed, the first record is a mapping, and
formatting it fails with the unknown-status error (the caught `KeyError` —
this is the failure mode the claim names), the cursor still advances to the
server-supplied `current_date` value of that response. -/
theorem cursor_advances_on_format_error (s : LoopState)
    (rkvs kvs : List (String × JsonVal)) (t : List JsonVal) (sv v : JsonVal)
    (hc : check_response (.dict rkvs) = .ok (JsonVal.dict kvs :: t))
    (hp : parse_status kvs = .error (.unknownStatus sv))
    (hd : dictLookup rkvs "current_date" = some v) :
    (runCycle s (.ok (.dict rkvs))).1.current_timestamp = v := by
  simp [runCycle, hc, hp, respGet, pyGet, hd]

/-- C5 (witness): a concrete unknown-status record still lets the cursor
advance to the `current_date` of the response. -/
theorem cursor_advances_on_format_error_witness :
    (runCycle ⟨.int 0, ""⟩ (.ok (.dict
      [("homeworks", .list [.dict [("status", .str "in_review")]]),
       ("current_date", .int 1700000100)]))).1.current_timestamp = JsonVal.int 1700000100 :=
  cursor_advances_on_format_error ⟨.int 0, ""⟩ _ _ _ (.str "in_review") _ rfl rfl rfl

/-- C3: `check_response` fails with `notAMapping` on a non-dict payload, with
`emptyMapping` on an empty dict, with `missingKey` when `homeworks` is absent,
with `notASequence` when the `homeworks` value is not a list, and otherwise
returns the `homeworks` list unchanged.  It is a pure Lean function: no side
effects. -/
theorem check_response_spec (resp : JsonVal) :
    ((∀ kvs, resp ≠ .dict kvs) → check_response resp = .error (.notAMapping resp)) ∧
    (resp = .dict [] → check_response resp = .error .emptyMapping) ∧
    (∀ kvs, resp = .dict kvs → 1 ≤ kvs.length →
      dictLookup kvs "homeworks" = none →
      check_response resp = .error .missingKey) ∧
    (∀ kvs v, resp = .dict kvs → 1 ≤ kvs.length →
      dictLookup kvs "homeworks" = some v → (∀ xs, v ≠ .list xs) →
      check_response resp = .error (.notASequence v)) ∧
    (∀ kvs hws, resp = .dict kvs → 1 ≤ kvs.length →
      dictLookup kvs "homeworks" = some (.list hws) →
      check_response resp = .ok hws) := by
  refine ⟨?_, ?_, ?_, ?_, ?_⟩
  · intro hnd
    rcases resp with - | s | n | xs | kvs
    · rfl
    · rfl
    · rfl
    · rfl
    · exact absurd rfl (hnd kvs)
  · rintro rfl
    rfl
  · rintro kvs rfl hlen hkey
    have hlt : ¬ kvs.length < 1 := by omega
    simp [check_response, hlt, hkey]
  · rintro kvs v rfl hlen hkey hnl
    have hlt : ¬ kvs.length < 1 := by omega
    rcases v with - | s | n | xs | kvs2
    · simp [check_response, hlt, hkey]
    · simp [check_response, hlt, hkey]
    · simp [check_response, hlt, hkey]
    · exact absurd rfl (hnl xs)
    · simp [check_response, hlt, hkey]
  · rintro kvs hws rfl hlen hkey
    have hlt : ¬ kvs.length < 1 := by omega
    simp [check_response, hlt, hkey]

/-- C3 (witness): on a well-formed payload the `homeworks` list is returned
unchanged. -/
theorem check_response_spec_witness :
    check_response (.dict [("homeworks", .list [.int 1])]) = .ok [.int 1] :=
  (check_response_spec _).2.2.2.2 [("homeworks", .list [.int 1])] [.int 1]
    rfl (by decide) rfl

/-- C6 (counterexample): for the record `\x7b"status": []\x7d` the status is
not a key of the catalog, yet `parse_status` does not fail with the
unknown-status `KeyError` — the membership test raises the uncaught
`TypeError` (unhashable type), and a cycle reaching this record dies. -/
theorem parse_status_unhashable_counterexample :
    statusKnown [("status", JsonVal.list [])] = false ∧
    parse_status [("status", .list [])] = .error (.unhashableStatus (.list [])) ∧
    parse_status [("status", .list [])] ≠ .error (.unknownStatus (.list [])) ∧
    (runCycle ⟨.int 0, ""⟩
      (.ok (.dict [("homeworks", .list [.dict [("status", .list [])]])]))).2.crashed
      = true := by
  refine ⟨rfl, rfl, ?_, rfl⟩
  intro h
  injection h with h2
  exact ParseError.noConfusion h2

/-- C6 (amended): `parse_status` fails exactly when the record's status is
not a string key of `HOMEWORK_STATUSES`, but the failure splits: the caught
`KeyError` (`unknownStatus`, carrying the status value) arises exactly when
the status value is hashable and not a known key, while an unhashable status
value (a list or a dict) makes the membership test itself raise the uncaught
`TypeError` (`unhashableStatus`); on a known status the fixed template is
returned, interpolating the `str()` renderings of the homework name and the
reviewer comment around the catalog verdict. -/
theorem parse_status_spec (hw : List (String × JsonVal)) :
    (parse_status hw = .error (.unknownStatus (pyGet hw "status")) ↔
      (statusHashable (pyGet hw "status") = true ∧ statusKnown hw = false)) ∧
    (parse_status hw = .error (.unhashableStatus (pyGet hw "status")) ↔
      statusHashable (pyGet hw "status") = false) ∧
    (∀ st verdict, pyGet hw "status" = .str st → statusLookup st = some verdict →
      parse_status hw = .ok (mkStatusMessage (pyStr (pyGet hw "homework_name"))
        verdict (pyStr (pyGet hw "reviewer_comment")))) := by
  refine ⟨?_, ?_, ?_⟩
  · rcases hst : pyGet hw "status" with - | st | n | xs | kvs
    · simp [parse_status, statusKnown, statusHashable, hst]
    · rcases hv : statusLookup st with - | verdict
      · simp [parse_status, statusKnown, statusHashable, hst, hv]
      · simp [parse_status, statusKnown, statusHashable, hst, hv]
    · simp [parse_status, statusKnown, statusHashable, hst]
    · simp [parse_status, statusKnown, statusHashable, hst]
    · simp [parse_status, statusKnown, statusHashable, hst]
  · rcases hst : pyGet hw "status" with - | st | n | xs | kvs
    · simp [parse_status, statusHashable, hst]
    · rcases hv : statusLookup st with - | verdict
      · simp [parse_status, statusHashable, hst, hv]
      · simp [parse_status, statusHashable, hst, hv]
    · simp [parse_status, statusHashable, hst]
    · simp [parse_status, statusHashable, hst]
    · simp [parse_status, statusHashable, hst]
  · intro st verdict h1 h2
    simp [parse_status, h1, h2]

/-- C6 (witness): a concrete record with a known status formats to the
template. -/
theorem parse_status_spec_witness :
    parse_status [("homework_name", .str "diplom1"), ("status", .str "approved")]
      = .ok (mkStatusMessage
          (pyStr (pyGet [("homework_name", .str "diplom1"), ("status", .str "approved")] "homework_name"))
          "Работа проверена: ревьюеру всё понравилось. Ура!"
          (pyStr (pyGet [("homework_name", .str "diplom1"), ("status", .str "approved")] "reviewer_comment"))) :=
  (parse_status_spec _).2.2 "approved" "Работа проверена: ревьюеру всё понравилось. Ура!" rfl rfl

/-- C10: every record whose status is a known catalog key formats
successfully — only the status field is validated, so the error branch is
unreachable — and whichever of `homework_name` / `reviewer_comment` is
absent is interpolated as the `None` placeholder (`.get` returns `None` and
the f-string renders it as the text `None`). -/
theorem parse_status_tolerates_missing_fields (hw : List (String × JsonVal))
    (st verdict : String)
    (h1 : pyGet hw "status" = .str st) (h2 : statusLookup st = some verdict) :
    parse_status hw = .ok (mkStatusMessage (pyStr (pyGet hw "homework_name"))
      verdict (pyStr (pyGet hw "reviewer_comment"))) ∧
    (dictLookup hw "homework_name" = none →
      pyStr (pyGet hw "homework_name") = "None") ∧
    (dictLookup hw "reviewer_comment" = none →
      pyStr (pyGet hw "reviewer_comment") = "None") := by
  refine ⟨by simp [parse_status, h1, h2], ?_, ?_⟩
  · intro hn
    simp [pyGet, hn, pyStr]
  · intro hc
    simp [pyGet, hc, pyStr]

/-- C10 (witness): a record with a known status and a name but no reviewer
comment formats successfully, the missing comment interpolated as `None`. -/
theorem parse_status_tolerates_missing_fields_witness :
    (parse_status [("homework_name", .str "hw1"), ("status", .str "approved")]
      = .ok (mkStatusMessage
          (pyStr (pyGet [("homework_name", .str "hw1"), ("status", .str "approved")] "homework_name"))
          "Работа проверена: ревьюеру всё понравилось. Ура!"
          (pyStr (pyGet [("homework_name", .str "hw1"), ("status", .str "approved")] "reviewer_comment")))) ∧
    (dictLookup [("homework_name", JsonVal.str "hw1"), ("status", JsonVal.str "approved")] "homework_name" = none →
      pyStr (pyGet [("homework_name", JsonVal.str "hw1"), ("status", JsonVal.str "approved")] "homework_name") = "None") ∧
    (dictLookup [("homework_name", JsonVal.str "hw1"), ("status", JsonVal.str "approved")] "reviewer_comment" = none →
      pyStr (pyGet [("homework_name", JsonVal.str "hw1"), ("status", JsonVal.str "approved")] "reviewer_comment") = "None") :=
  parse_status_tolerates_missing_fields
    [("homework_name", .str "hw1"), ("status", .str "approved")]
    "approved" "Работа проверена: ревьюеру всё понравилось. Ура!" rfl rfl

/-- C7 (counterexample): an empty string is not `None`, so with all three
credentials set to the empty string `check_tokens` is `True` and the loop
runs an iteration — the guard tests presence, not non-emptiness. -/
theorem check_tokens_empty_counterexample :
    check_tokens ⟨some "", some "", some ""⟩ = true ∧
    ("" : String).length = 0 ∧
    (runLoop ⟨some "", some "", some ""⟩ ⟨.int 0, ""⟩ [.httpError "u" 500]).2.length = 1 := by
  refine ⟨rfl, rfl, ?_⟩
  decide

/-- C7 (amended): when any of the three credentials is unset (`None`), the
guard is `False` and the loop executes zero iterations whatever the network
would have delivered — no cycle runs and no notification is attempted; the
guard is the loop condition, re-evaluated before every iteration. -/
theorem credential_guard_halts (c : Credentials) (s : LoopState) (frs : List FetchResult)
    (h : c.practicum_token = none ∨ c.telegram_token = none ∨ c.telegram_chat_id = none) :
    check_tokens c = false ∧ runLoop c s frs = (s, []) := by
  have hct : check_tokens c = false := by
    rcases h with h | h | h <;> simp [check_tokens, h]
  refine ⟨hct, ?_⟩
  cases frs with
  | nil => rfl
  | cons fr rest => simp [runLoop, hct]

/-- C7 (witness for the amended theorem at a concrete input). -/
theorem credential_guard_halts_witness :
    check_tokens ⟨none, some "t", some "id"⟩ = false ∧
    runLoop ⟨none, some "t", some "id"⟩ ⟨.int 0, ""⟩ [.httpError "u" 500]
      = (⟨.int 0, ""⟩, []) :=
  credential_guard_halts ⟨none, some "t", some "id"⟩ ⟨.int 0, ""⟩
    [.httpError "u" 500] (Or.inl rfl)

/-- C9: `send_message` never propagates a failure of the underlying delivery
call — for every outcome it returns normally (`.ok`); on delivery failure the
failure is swallowed and logged at error level, on success a confirmation is
logged at info level. -/
theorem send_message_never_raises (outcome : Except String Unit) (message : String) :
    (send_message outcome message).isOk = true ∧
    (∀ e, outcome = .error e →
      send_message outcome message =
        .ok [LogEvent.error ("Сбой в работе программы: Отправка сообщения в чат не" ++
          "удалась. " ++ e)]) ∧
    (outcome = .ok () →
      send_message outcome message =
        .ok [LogEvent.info ("Сообщение успешно отправлено: \"" ++ message ++ "\"")]) := by
  rcases outcome with e | u
  · refine ⟨rfl, ?_, ?_⟩
    · rintro e2 he
      simp only [Except.error.injEq] at he
      subst he
      rfl
    · intro h
      exact Except.noConfusion h
  · exact ⟨rfl, fun e2 he => Except.noConfusion he, fun _ => rfl⟩

/-- C9 (witness): a concrete failing delivery is swallowed and logged. -/
theorem send_message_never_raises_witness :
    send_message (Except.error "boom") "msg" =
      .ok [LogEvent.error ("Сбой в работе программы: Отправка сообщения в чат не" ++
        "удалась. " ++ "boom")] :=
  (send_message_never_raises (Except.error "boom") "msg").2.1 "boom" rfl

/-- C8 (counterexample, two inputs): (i) the caught unknown-status branch
sleeps twice — once inside `error_log_and_message` and once at the end of
the loop body; (ii) the uncaught unhashable-status branch kills the process
before any sleep, so zero sleeps happen.  Either input refutes 'exactly one
fixed retry interval regardless of which branch was taken'. -/
theorem double_sleep_counterexample :
    ((runCycle ⟨.int 0, ""⟩ (.ok (.dict
      [("homeworks", .list [.dict [("status", .str "in_review")]]),
       ("current_date", .int 5)]))).2.sleeps = [RETRY_TIME, RETRY_TIME] ∧
     (runCycle ⟨.int 0, ""⟩ (.ok (.dict
      [("homeworks", .list [.dict [("status", .str "in_review")]]),
       ("current_date", .int 5)]))).2.sleeps.length ≠ 1) ∧
    ((runCycle ⟨.int 0, ""⟩ (.ok (.dict
      [("homeworks", .list [.dict [("status", .list [])]]),
       ("current_date", .int 5)]))).2.crashed = true ∧
     (runCycle ⟨.int 0, ""⟩ (.ok (.dict
      [("homeworks", .list [.dict [("status", .list [])]]),
       ("current_date", .int 5)]))).2.sleeps = []) := by
  exact ⟨⟨by decide, by decide⟩, rfl, rfl⟩

/-- C8 (amended): an iteration that completes sleeps once or twice, always
in units of the one constant interval `RETRY_TIME`: twice exactly on the
caught unknown-status branch (fetch and validation succeeded, first record a
mapping, `parse_status` raised the caught `KeyError`), once on every other
completing branch; an iteration that dies of an uncaught exception does not
sleep at all. -/
theorem sleep_intervals_per_cycle (s : LoopState) (fr : FetchResult) :
    ((runCycle s fr).2.crashed = false →
      (∀ d ∈ (runCycle s fr).2.sleeps, d = RETRY_TIME) ∧
      ((runCycle s fr).2.sleeps.length = 1 ∨ (runCycle s fr).2.sleeps.length = 2) ∧
      ((runCycle s fr).2.sleeps.length = 2 ↔
        ∃ resp kvs t sv, fr = .ok resp ∧
          check_response resp = .ok (JsonVal.dict kvs :: t) ∧
          parse_status kvs = .error (.unknownStatus sv))) ∧
    ((runCycle s fr).2.crashed = true → (runCycle s fr).2.sleeps = []) := by
  rcases fr with ⟨url, code⟩ | resp
  · obtain ⟨-, -, -, hs, hcf⟩ := elam_spec (connErrStr url code) s.cache_message
    simp only [runCycle]
    rw [hs, hcf]
    refine ⟨fun _ => ⟨by simp, Or.inl rfl, by simp⟩, fun hcr => absurd hcr (by decide)⟩
  · rcases hc : check_response resp with ce | hws
    · obtain ⟨-, -, -, hs, hcf⟩ := elam_spec (checkErrStr ce) s.cache_message
      simp only [runCycle, hc]
      rw [hs, hcf]
      refine ⟨fun _ => ⟨by simp, Or.inl rfl, ?_⟩, fun hcr => absurd hcr (by decide)⟩
      constructor
      · intro hlen
        exact absurd hlen (by decide)
      · rintro ⟨resp', kvs', t', sv', heq, hc', -⟩
        injection heq with h'
        subst h'
        rw [hc] at hc'
        exact Except.noConfusion hc'
    · rcases hws with - | ⟨hw, t⟩
      · simp only [runCycle, hc]
        refine ⟨fun _ => ⟨by simp, Or.inl rfl, ?_⟩, fun hcr => absurd hcr (by decide)⟩
        constructor
        · intro hlen
          exact absurd hlen (by decide)
        · rintro ⟨resp', kvs', t', sv', heq, hc', -⟩
          injection heq with h'
          subst h'
          rw [hc] at hc'
          injection hc' with h''
          exact List.noConfusion h''
      · rcases hw with - | s' | n | xs | kvs
        · simp only [runCycle, hc]
          exact ⟨fun hnc => absurd hnc (by decide), fun _ => by trivial⟩
        · simp only [runCycle, hc]
          exact ⟨fun hnc => absurd hnc (by decide), fun _ => by trivial⟩
        · simp only [runCycle, hc]
          exact ⟨fun hnc => absurd hnc (by decide), fun _ => by trivial⟩
        · simp only [runCycle, hc]
          exact ⟨fun hnc => absurd hnc (by decide), fun _ => by trivial⟩
        · rcases hp : parse_status kvs with pe | msg
          · rcases pe with sv | sv
            · obtain ⟨-, -, -, hs, hcf⟩ :=
                elam_spec (parseErrStr (.unknownStatus sv)) s.cache_message
              simp only [runCycle, hc, hp]
              rw [hs, hcf]
              refine ⟨fun _ => ⟨by simp, Or.inr rfl, ?_⟩,
                      fun hcr => absurd hcr (by decide)⟩
              constructor
              · intro _
                exact ⟨resp, kvs, t, sv, rfl, hc, hp⟩
              · intro _
                rfl
            · simp only [runCycle, hc, hp]
              exact ⟨fun hnc => absurd hnc (by decide), fun _ => by trivial⟩
          · simp only [runCycle, hc, hp]
            refine ⟨fun _ => ⟨by simp, Or.inl rfl, ?_⟩,
                    fun hcr => absurd hcr (by decide)⟩
            constructor
            · intro hlen
              exact absurd hlen (by decide)
            · rintro ⟨resp', kvs', t', sv', heq, hc', hp'⟩
              injection heq with h'
              subst h'
              rw [hc] at hc'
              injection hc' with h''
              injection h'' with h1 h2
              injection h1 with h3
              subst h3
              rw [hp] at hp'
              exact Except.noConfusion hp'

/-- C8 (witness for the amended theorem): a concrete transport-error cycle
completes and sleeps exactly once, for `RETRY_TIME`. -/
theorem sleep_intervals_per_cycle_witness :
    (∀ d ∈ (runCycle ⟨.int 0, ""⟩ (.httpError "u" 500)).2.sleeps, d = RETRY_TIME) ∧
    ((runCycle ⟨.int 0, ""⟩ (.httpError "u" 500)).2.sleeps.length = 1 ∨
     (runCycle ⟨.int 0, ""⟩ (.httpError "u" 500)).2.sleeps.length = 2) ∧
    ((runCycle ⟨.int 0, ""⟩ (.httpError "u" 500)).2.sleeps.length = 2 ↔
      ∃ resp kvs t sv, FetchResult.httpError "u" 500 = .ok resp ∧
        check_response resp = .ok (JsonVal.dict kvs :: t) ∧
        parse_status kvs = .error (.unknownStatus sv)) :=
  (sleep_intervals_per_cycle ⟨.int 0, ""⟩ (.httpError "u" 500)).1 rfl
